import Mathlib

/-!
Shallow embedding of the WorthIt (ConvenienceCalc) repository:
data models (src/models.py), core algorithms (src/algorithms.py),
Monte Carlo simulation (src/simulation.py) and the CLI sampling /
demo scenario (src/calc/cli.py).

Python floats are modelled as exact rationals (ℚ); the simulation
summary, which takes square roots, is modelled over ℝ.  Python dicts
with string keys are modelled as association lists `List (String × _)`.
-/

namespace WorthIt

/-- Availability enumeration (src/models.py). -/
inductive Availability
  | FLEXIBLE | SEMI_FLEXIBLE | FIXED
  deriving DecidableEq

/-- Urgency enumeration (src/models.py). -/
inductive Urgency
  | EMERGENCY | URGENT | TIME_PRESSED | NORMAL | RELAXED
  deriving DecidableEq

/-- Day-context enumeration (src/models.py). -/
inductive DayContext
  | MONDAY_MORNING | RUSH_HOUR | WEEKDAY | WEEKEND | HOLIDAY
  deriving DecidableEq

/-- Weather-context enumeration (src/models.py). -/
inductive WeatherContext
  | SEVERE | RAIN_SNOW | EXTREME_TEMP | NORMAL
  deriving DecidableEq

/-- Stress-tolerance enumeration (src/models.py). -/
inductive StressTolerance
  | LOW | MEDIUM_LOW | MEDIUM | MEDIUM_HIGH | HIGH
  deriving DecidableEq

/-- Context model (src/models.py, class Context). -/
structure Context where
  urgency : Urgency
  day : DayContext
  weather : WeatherContext
  availability : Availability
  base_multiplier : ℚ
  productivity_factor : ℚ
  minimum_rate : ℚ
  deriving DecidableEq

/-- TimeEconomics model (src/models.py, class TimeEconomics). -/
structure TimeEconomics where
  annual_income : ℚ
  annual_work_hours : ℚ
  overtime_premium : ℚ
  deriving DecidableEq

/-- Decision-option model (src/models.py, class Option).  The two dict
fields `stress_multipliers` and `opportunity_catalog` are association
lists; the inner opportunity dicts map keys (nominally A, V, P) to
rationals. -/
structure Opt where
  name : String
  base_cost : ℚ
  extra_cost : ℚ
  time_saved_hours : ℚ
  commute_time_hours : ℚ
  productivity_rate : ℚ
  activity_value : ℚ
  comfort_improvement : ℚ
  comfort_weight : ℚ
  reliability_premium : ℚ
  failure_cost : ℚ
  failure_probability : ℚ
  stress_baseline : ℚ
  stress_cost_per_point : ℚ
  stress_tolerance : StressTolerance
  stress_multipliers : List (String × ℚ)
  opportunity_catalog : List (String × List (String × ℚ))
  deriving DecidableEq

/-- Rhourly per Eq. (12) (src/algorithms.py, hourly_rate):
`annual_income / max(annual_work_hours, 1e-9) * (1 + overtime_premium)`. -/
def hourly_rate (econ : TimeEconomics) : ℚ :=
  econ.annual_income / max econ.annual_work_hours (1 / 1000000000) *
    (1 + econ.overtime_premium)

/-- Reffective per Eq. (11) (src/algorithms.py, effective_rate):
`max(hourly_rate, minimum_rate) * productivity_factor`. -/
def effective_rate (econ : TimeEconomics) (ctx : Context) : ℚ :=
  max (hourly_rate econ) ctx.minimum_rate * ctx.productivity_factor

/-- Urgency table of context_multiplier (src/algorithms.py). -/
def m_urgency : Urgency → ℚ
  | Urgency.EMERGENCY => 2
  | Urgency.URGENT => 3 / 2
  | Urgency.TIME_PRESSED => 6 / 5
  | Urgency.NORMAL => 1
  | Urgency.RELAXED => 4 / 5

/-- Day table of context_multiplier (src/algorithms.py). -/
def m_day : DayContext → ℚ
  | DayContext.MONDAY_MORNING => 13 / 10
  | DayContext.RUSH_HOUR => 6 / 5
  | DayContext.WEEKDAY => 1
  | DayContext.WEEKEND => 9 / 10
  | DayContext.HOLIDAY => 7 / 10

/-- Weather table of context_multiplier (src/algorithms.py). -/
def m_weather : WeatherContext → ℚ
  | WeatherContext.SEVERE => 7 / 5
  | WeatherContext.RAIN_SNOW => 6 / 5
  | WeatherContext.EXTREME_TEMP => 11 / 10
  | WeatherContext.NORMAL => 1

/-- Mcontext per Eq. (13) (src/algorithms.py, context_multiplier):
`base_multiplier * m_urgency * m_day * m_weather`. -/
def context_multiplier (ctx : Context) : ℚ :=
  ctx.base_multiplier * m_urgency ctx.urgency * m_day ctx.day *
    m_weather ctx.weather

/-- Aavailability per Eq. (14) (src/algorithms.py, availability_multiplier). -/
def availability_multiplier (ctx : Context) : ℚ :=
  match ctx.availability with
  | Availability.FLEXIBLE => 1
  | Availability.SEMI_FLEXIBLE => 7 / 10
  | Availability.FIXED => 3 / 10

/-- Btime per Eq. (9) (src/algorithms.py, time_value). -/
def time_value (opt : Opt) (econ : TimeEconomics) (ctx : Context) : ℚ :=
  opt.time_saved_hours * effective_rate econ ctx * context_multiplier ctx *
    availability_multiplier ctx

/-- Ftolerance per Eq. (22) (src/algorithms.py, stress_tolerance_factor). -/
def stress_tolerance_factor : StressTolerance → ℚ
  | StressTolerance.LOW => 2
  | StressTolerance.MEDIUM_LOW => 3 / 2
  | StressTolerance.MEDIUM => 1
  | StressTolerance.MEDIUM_HIGH => 7 / 10
  | StressTolerance.HIGH => 2 / 5

/-- Bstress per Eq. (18)-(26) (src/algorithms.py, stress_value):
msituation starts at 1.0 and is multiplied by each declared stress
multiplier in turn. -/
def stress_value (opt : Opt) : ℚ :=
  let msituation := opt.stress_multipliers.foldl (fun acc p => acc * p.2) 1
  let ftol := stress_tolerance_factor opt.stress_tolerance
  opt.stress_baseline * msituation * ftol * opt.stress_cost_per_point

/-- Defaulting lookup d.get(k, 0.0) on an inner opportunity dict (src/algorithms.py,
opportunity_value). -/
def dict_get (d : List (String × ℚ)) (k : String) : ℚ :=
  (d.lookup k).getD 0

/-- Contribution of one opportunity-catalog entry: A * V * P with each
missing key defaulting to 0.0 (src/algorithms.py, opportunity_value). -/
def entry_value (d : List (String × ℚ)) : ℚ :=
  dict_get d "A" * dict_get d "V" * dict_get d "P"

/-- Bopportunity per Eq. (27)-(36) (src/algorithms.py, opportunity_value):
total starts at 0.0 and accumulates A * V * P over the catalog. -/
def opportunity_value (opt : Opt) : ℚ :=
  opt.opportunity_catalog.foldl (fun total p => total + entry_value p.2) 0

/-- Bcomfort per Eq. (37)-(39) (src/algorithms.py, comfort_value). -/
def comfort_value (opt : Opt) : ℚ :=
  opt.comfort_improvement * opt.comfort_weight

/-- Breliability per Eq. (41)-(46) (src/algorithms.py, reliability_value). -/
def reliability_value (opt : Opt) : ℚ :=
  opt.reliability_premium * opt.failure_cost * opt.failure_probability

/-- V_convenience per Eq. (1)-(3) (src/algorithms.py,
master_convenience_value).  Returns the scalar score and the details
mapping with the nine keys of the source dict literal. -/
def master_convenience_value (opt : Opt) (econ : TimeEconomics)
    (ctx : Context) (w_financial : ℚ) : ℚ × List (String × ℚ) :=
  let b_time := time_value opt econ ctx
  let b_stress := stress_value opt
  let b_opp := opportunity_value opt
  let b_comfort := comfort_value opt
  let b_rel := reliability_value opt
  let b_total := b_time + b_stress + b_opp + b_comfort + b_rel
  let numerator := b_total - opt.extra_cost
  let denom := max opt.base_cost (1 / 1000000000)
  let score := numerator / denom * w_financial
  (score,
    [("B_time", b_time), ("B_stress", b_stress), ("B_opportunity", b_opp),
     ("B_comfort", b_comfort), ("B_reliability", b_rel),
     ("B_total", b_total), ("C_extra", opt.extra_cost),
     ("C_base", opt.base_cost), ("score", score)])

/-- Arithmetic mean per statistics.fmean, sum / length (raises on an empty
list; the emptiness guard lives in `monte_carlo`). -/
noncomputable def fmean (l : List ℝ) : ℝ :=
  l.sum / l.length

/-- Median per statistics.median: middle element of the sorted data for odd length,
average of the two middle elements for even length. -/
noncomputable def median (l : List ℝ) : ℝ :=
  let s := List.insertionSort (· ≤ ·) l
  let n := l.length
  if n % 2 = 1 then s.getD (n / 2) 0
  else (s.getD (n / 2 - 1) 0 + s.getD (n / 2) 0) / 2

/-- Population variance with the population mean, as used by
`statistics.pstdev` (divide by N, not N-1). -/
noncomputable def pvariance (l : List ℝ) : ℝ :=
  (l.map (fun x => (x - fmean l) ^ 2)).sum / l.length

/-- Summary dict returned by `monte_carlo` (src/simulation.py). -/
structure Summary where
  mean : ℝ
  median : ℝ
  stdev : ℝ
  ci_low : ℝ
  ci_high : ℝ

/-- The list `[run_fn() for _ in range(runs)]` of src/simulation.py,
with the i-th invocation of `run_fn` modelled as `run_fn i`.  A Python
`range` over a non-positive int is empty, hence `Int.toNat`. -/
def mc_results (run_fn : ℕ → ℝ) (runs : ℤ) : List ℝ :=
  (List.range runs.toNat).map run_fn

/-- Monte Carlo summary, monte_carlo(run_fn, runs) of src/simulation.py: runs the function
`runs` times and summarizes mean, median, population stdev and the 95%
normal-approximation CI.  `statistics.fmean` raises StatisticsError on an
empty result list, modelled as `Except.error`; with one data point stdev
is defined as 0.0. -/
noncomputable def monte_carlo (run_fn : ℕ → ℝ) (runs : ℤ) :
    Except String Summary :=
  let results := mc_results run_fn runs
  if results.isEmpty then
    Except.error "fmean requires at least one data point"
  else
    let mean := fmean results
    let med := median results
    let stdev := if 1 < results.length then Real.sqrt (pvariance results)
      else 0
    let half := 196 / 100 * (stdev / max (Real.sqrt results.length) 1)
    Except.ok ⟨mean, med, stdev, mean - half, mean + half⟩

/-- One distribution spec of the CLI `simulate` command: the JSON value
under a field name inside `distributions`, a dict whose recognized keys
are `uniform` (two-element [lo, hi]) and `normal` ([mean, stdev]). -/
abbrev DistSpec := List (String × (ℚ × ℚ))

/-- Field assignment d[field] = value followed by Option(**d) in sample_option
(src/calc/cli.py): updates the named numeric field of the option;
unrecognized field names are ignored (pydantic ignores extra keys). -/
def update_field (o : Opt) (field : String) (v : ℚ) : Opt :=
  if field = "base_cost" then { o with base_cost := v }
  else if field = "extra_cost" then { o with extra_cost := v }
  else if field = "time_saved_hours" then { o with time_saved_hours := v }
  else if field = "commute_time_hours" then { o with commute_time_hours := v }
  else if field = "productivity_rate" then { o with productivity_rate := v }
  else if field = "activity_value" then { o with activity_value := v }
  else if field = "comfort_improvement" then { o with comfort_improvement := v }
  else if field = "comfort_weight" then { o with comfort_weight := v }
  else if field = "reliability_premium" then { o with reliability_premium := v }
  else if field = "failure_cost" then { o with failure_cost := v }
  else if field = "failure_probability" then { o with failure_probability := v }
  else if field = "stress_baseline" then { o with stress_baseline := v }
  else if field = "stress_cost_per_point" then { o with stress_cost_per_point := v }
  else o

/-- Sampling function sample_option of the CLI simulate command (src/calc/cli.py):
for each declared field, if the spec has a `uniform` key the field is
set to a uniform draw, elif it has a `normal` key to a gaussian draw,
and otherwise — a malformed spec — the loop silently moves on, leaving
the field at its base value.  `udraw`/`gdraw` model `random.uniform` and
`random.gauss`. -/
def sample_option (udraw gdraw : ℚ → ℚ → ℚ) (base : Opt)
    (dists : List (String × DistSpec)) : Opt :=
  dists.foldl (fun o p =>
    match (p.2.lookup "uniform" : Option (ℚ × ℚ)) with
    | some (lo, hi) => update_field o p.1 (udraw lo hi)
    | none =>
      match (p.2.lookup "normal" : Option (ℚ × ℚ)) with
      | some (mu, sigma) => update_field o p.1 (gdraw mu sigma)
      | none => o) base

/-- Composition run_once + monte_carlo(run_once, runs) of the CLI simulate
command (src/calc/cli.py): each run samples an option and recomputes the
score; the draw oracles take the run index to model fresh randomness. -/
noncomputable def simulate_run (udraw gdraw : ℕ → ℚ → ℚ → ℚ)
    (base : Opt) (econ : TimeEconomics) (ctx : Context) (w_fin : ℚ)
    (dists : List (String × DistSpec)) (runs : ℤ) :
    Except String Summary :=
  monte_carlo (fun i =>
    ((master_convenience_value (sample_option (udraw i) (gdraw i) base dists)
      econ ctx w_fin).1 : ℝ)) runs

/-- The demo option of the CLI `demo` command (src/calc/cli.py). -/
def demo_option : Opt :=
  { name := "Taxi upgrade"
    base_cost := 3
    extra_cost := 12
    time_saved_hours := 33 / 100
    commute_time_hours := 0
    productivity_rate := 0
    activity_value := 0
    comfort_improvement := 3 / 5
    comfort_weight := 10
    reliability_premium := 1 / 10
    failure_cost := 50
    failure_probability := 1 / 10
    stress_baseline := 4
    stress_cost_per_point := 2
    stress_tolerance := StressTolerance.MEDIUM_LOW
    stress_multipliers :=
      [("crowding", 6 / 5), ("unpredictability", 13 / 10), ("control", 11 / 10)]
    opportunity_catalog := [("work", [("A", 33 / 100), ("V", 20), ("P", 3 / 5)])] }

/-- The demo TimeEconomics of the CLI `demo` command (src/calc/cli.py). -/
def demo_econ : TimeEconomics :=
  { annual_income := 24000, annual_work_hours := 1800, overtime_premium := 1 / 10 }

/-- The demo Context of the CLI `demo` command (src/calc/cli.py). -/
def demo_ctx : Context :=
  { urgency := Urgency.NORMAL
    day := DayContext.WEEKDAY
    weather := WeatherContext.NORMAL
    availability := Availability.SEMI_FLEXIBLE
    base_multiplier := 1
    productivity_factor := 1
    minimum_rate := 8 }

/-- Unfolding lemma for association-list lookup at a cons cell. -/
theorem lookup_cons_pair (k k' : String) (v : ℚ) (l : List (String × ℚ)) :
    List.lookup k ((k', v) :: l) = if k == k' then some v else List.lookup k l := by
  cases h : k == k' <;> simp [List.lookup, h]

/-- C1: for every Option, TimeEconomics, Context and weight w_financial,
master_convenience_value returns score =
((B_total - extra_cost) / max(base_cost, 1e-9)) * w_financial, together
with a breakdown mapping whose entries B_time, B_stress, B_opportunity,
B_comfort, B_reliability, B_total, C_extra, C_base and score hold the
individual terms, with B_total the sum of the five benefit terms. -/
theorem master_score_and_breakdown (opt : Opt) (econ : TimeEconomics)
    (ctx : Context) (w_financial : ℚ) :
    (master_convenience_value opt econ ctx w_financial).1 =
      (time_value opt econ ctx + stress_value opt + opportunity_value opt +
          comfort_value opt + reliability_value opt - opt.extra_cost) /
        max opt.base_cost (1 / 1000000000) * w_financial ∧
    (master_convenience_value opt econ ctx w_financial).2.lookup "B_time" =
      some (time_value opt econ ctx) ∧
    (master_convenience_value opt econ ctx w_financial).2.lookup "B_stress" =
      some (stress_value opt) ∧
    (master_convenience_value opt econ ctx w_financial).2.lookup "B_opportunity" =
      some (opportunity_value opt) ∧
    (master_convenience_value opt econ ctx w_financial).2.lookup "B_comfort" =
      some (comfort_value opt) ∧
    (master_convenience_value opt econ ctx w_financial).2.lookup "B_reliability" =
      some (reliability_value opt) ∧
    (master_convenience_value opt econ ctx w_financial).2.lookup "B_total" =
      some (time_value opt econ ctx + stress_value opt + opportunity_value opt +
        comfort_value opt + reliability_value opt) ∧
    (master_convenience_value opt econ ctx w_financial).2.lookup "C_extra" =
      some opt.extra_cost ∧
    (master_convenience_value opt econ ctx w_financial).2.lookup "C_base" =
      some opt.base_cost ∧
    (master_convenience_value opt econ ctx w_financial).2.lookup "score" =
      some ((master_convenience_value opt econ ctx w_financial).1) :=
  ⟨rfl, rfl, rfl, rfl, rfl, rfl, rfl, rfl, rfl, rfl⟩

/-- C2: the demo scenario of the CLI (taxi vs bus) reproduces the values
listed in the specification to within 0.001 each: hourly_rate and
effective_rate near 14.667, time_value near 3.389, stress_value 20.592,
opportunity_value 3.96, comfort_value 6, reliability_value 0.5, B_total
near 34.441 and score near 7.480. -/
theorem demo_values :
    |hourly_rate demo_econ - 14667 / 1000| ≤ 1 / 1000 ∧
    |effective_rate demo_econ demo_ctx - 14667 / 1000| ≤ 1 / 1000 ∧
    |time_value demo_option demo_econ demo_ctx - 3389 / 1000| ≤ 1 / 1000 ∧
    stress_value demo_option = 20592 / 1000 ∧
    opportunity_value demo_option = 396 / 100 ∧
    comfort_value demo_option = 6 ∧
    reliability_value demo_option = 1 / 2 ∧
    |time_value demo_option demo_econ demo_ctx + stress_value demo_option +
        opportunity_value demo_option + comfort_value demo_option +
        reliability_value demo_option - 34441 / 1000| ≤ 1 / 1000 ∧
    |(master_convenience_value demo_option demo_econ demo_ctx 1).1 -
        7480 / 1000| ≤ 1 / 1000 := by
  refine ⟨?_, ?_, ?_, ?_, ?_, ?_, ?_, ?_, ?_⟩ <;>
    norm_num +decide [hourly_rate, effective_rate, time_value,
      context_multiplier, availability_multiplier, m_urgency, m_day,
      m_weather, stress_value, stress_tolerance_factor, opportunity_value,
      entry_value, dict_get, comfort_value, reliability_value,
      master_convenience_value, demo_option, demo_econ, demo_ctx,
      List.foldl, lookup_cons_pair, abs_le, max_def]

/-- A TimeEconomics whose hourly rate is 0 (zero income). -/
def zero_income_econ : TimeEconomics :=
  { annual_income := 0, annual_work_hours := 1, overtime_premium := 0 }

/-- A Context with a floor of 8 and a discounting productivity factor. -/
def discount_ctx : Context :=
  { urgency := Urgency.NORMAL
    day := DayContext.WEEKDAY
    weather := WeatherContext.NORMAL
    availability := Availability.FLEXIBLE
    base_multiplier := 1
    productivity_factor := 1 / 2
    minimum_rate := 8 }

/-- C3 counterexample: with zero income, minimum_rate = 8 and
productivity_factor = 0.5, the effective rate is 4, strictly below the
configured floor — so the effective rate CAN fall below minimum_rate. -/
theorem effective_rate_below_floor :
    effective_rate zero_income_econ discount_ctx <
      discount_ctx.minimum_rate := by
  norm_num [effective_rate, hourly_rate, zero_income_econ, discount_ctx,
    max_def]

/-- C3 amended: effective_rate(economics, context) equals
max(hourly_rate(economics), minimum_rate) * productivity_factor, and the
floor applies to the rate before productivity scaling: the pre-scaling
rate max(hourly_rate, minimum_rate) never falls below minimum_rate (the
final effective rate can still fall below the floor when
productivity_factor < 1). -/
theorem effective_rate_formula_and_floor (econ : TimeEconomics)
    (ctx : Context) :
    effective_rate econ ctx =
      max (hourly_rate econ) ctx.minimum_rate * ctx.productivity_factor ∧
    ctx.minimum_rate ≤ max (hourly_rate econ) ctx.minimum_rate :=
  ⟨rfl, le_max_right _ _⟩

/-- Every urgency table factor is nonzero. -/
theorem m_urgency_ne_zero (u : Urgency) : m_urgency u ≠ 0 := by
  cases u <;> norm_num [m_urgency]

/-- Every day table factor is nonzero. -/
theorem m_day_ne_zero (d : DayContext) : m_day d ≠ 0 := by
  cases d <;> norm_num [m_day]

/-- Every weather table factor is nonzero. -/
theorem m_weather_ne_zero (w : WeatherContext) : m_weather w ≠ 0 := by
  cases w <;> norm_num [m_weather]

/-- C7: context_multiplier is strictly multiplicative — replacing exactly
one of the categorical fields urgency, day or weather, all other fields
held fixed, rescales the result by exactly the ratio of that field's
table factors, whatever the other fields are. -/
theorem context_multiplier_strictly_multiplicative (ctx : Context)
    (u : Urgency) (d : DayContext) (w : WeatherContext) :
    context_multiplier { ctx with urgency := u } =
      context_multiplier ctx * (m_urgency u / m_urgency ctx.urgency) ∧
    context_multiplier { ctx with day := d } =
      context_multiplier ctx * (m_day d / m_day ctx.day) ∧
    context_multiplier { ctx with weather := w } =
      context_multiplier ctx * (m_weather w / m_weather ctx.weather) := by
  obtain ⟨cu, cd, cw, ca, cb, cp, cm⟩ := ctx
  have hu := m_urgency_ne_zero cu
  have hd := m_day_ne_zero cd
  have hw := m_weather_ne_zero cw
  refine ⟨?_, ?_, ?_⟩ <;> simp only [context_multiplier] <;>
    field_simp <;> ring

/-- C8: an Option with an empty stress_multipliers mapping has the same
stress_value as the same Option with a single stress multiplier of 1.0:
the product over stress_multipliers is the empty product, 1.0. -/
theorem stress_value_empty_eq_single_one (opt : Opt) (k : String) :
    stress_value { opt with stress_multipliers := [] } =
      stress_value { opt with stress_multipliers := [(k, 1)] } := by
  simp [stress_value, List.foldl]

/-- Rewriting the accumulating loop of opportunity_value as a mapped sum. -/
theorem opportunity_foldl_eq_sum
    (l : List (String × List (String × ℚ))) (a : ℚ) :
    l.foldl (fun total p => total + entry_value p.2) a =
      a + (l.map (fun p => entry_value p.2)).sum := by
  induction l generalizing a with
  | nil => simp
  | cons x xs ih =>
    simp only [List.foldl_cons, List.map_cons, List.sum_cons, ih]
    ring

/-- C9: opportunity_value is invariant under any permutation of the
opportunity_catalog entries — it is the sum over entries of A * V * P
regardless of iteration order. -/
theorem opportunity_value_perm_invariant (opt : Opt)
    (catalog : List (String × List (String × ℚ)))
    (h : catalog.Perm opt.opportunity_catalog) :
    opportunity_value { opt with opportunity_catalog := catalog } =
      opportunity_value opt := by
  simp only [opportunity_value, opportunity_foldl_eq_sum, zero_add]
  exact List.Perm.sum_eq (h.map _)

/-- Witness for C9 at a concrete two-entry catalog and its swap. -/
theorem opportunity_value_perm_invariant_witness :
    opportunity_value
      { { demo_option with opportunity_catalog :=
            [("work", [("A", 33 / 100), ("V", 20), ("P", 3 / 5)]),
             ("rest", [("A", 1), ("V", 5), ("P", 1 / 2)])] } with
        opportunity_catalog :=
          [("rest", [("A", 1), ("V", 5), ("P", 1 / 2)]),
           ("work", [("A", 33 / 100), ("V", 20), ("P", 3 / 5)])] } =
    opportunity_value
      { demo_option with opportunity_catalog :=
          [("work", [("A", 33 / 100), ("V", 20), ("P", 3 / 5)]),
           ("rest", [("A", 1), ("V", 5), ("P", 1 / 2)])] } :=
  opportunity_value_perm_invariant _ _ (List.Perm.swap _ _ _)

/-- C10: an opportunity-catalog entry missing any of the keys A, V or P
contributes 0 to the sum (each missing key is read as 0.0) rather than
raising an error; a catalog whose entries all miss a key yields
opportunity_value = 0. -/
theorem opportunity_missing_keys_zero :
    (∀ d : List (String × ℚ),
      (d.lookup "A" = none ∨ d.lookup "V" = none ∨ d.lookup "P" = none) →
      entry_value d = 0) ∧
    ∀ opt : Opt,
      (∀ p ∈ opt.opportunity_catalog,
        p.2.lookup "A" = none ∨ p.2.lookup "V" = none ∨
          p.2.lookup "P" = none) →
      opportunity_value opt = 0 := by
  constructor
  · rintro d (h | h | h) <;> simp [entry_value, dict_get, h]
  · intro opt h
    rw [opportunity_value, opportunity_foldl_eq_sum, zero_add]
    apply List.sum_eq_zero
    intro x hx
    simp only [List.mem_map] at hx
    obtain ⟨p, hp, rfl⟩ := hx
    rcases h p hp with h' | h' | h' <;> simp [entry_value, dict_get, h']

/-- Witness for C10: a catalog whose first entry misses A and whose
second misses V evaluates to opportunity_value 0. -/
theorem opportunity_missing_keys_zero_witness :
    opportunity_value
      { demo_option with opportunity_catalog :=
          [("a", [("V", 5)]), ("b", [("A", 1), ("P", 2)])] } = 0 := by
  apply opportunity_missing_keys_zero.2
  intro p hp
  rcases List.mem_cons.mp hp with rfl | hp
  · exact Or.inl rfl
  rcases List.mem_cons.mp hp with rfl | hp
  · exact Or.inr (Or.inl rfl)
  · simp at hp

/-- C5: calling monte_carlo with runs < 1 is a fatal input error — the
result list is empty and the mean computation raises, so an error is
returned and no summary; with runs ≥ 1 the run function is executed
exactly runs times and a summary is returned. -/
theorem monte_carlo_runs_guard (run_fn : ℕ → ℝ) (runs : ℤ) :
    (runs < 1 → monte_carlo run_fn runs =
      Except.error "fmean requires at least one data point") ∧
    (1 ≤ runs → ((mc_results run_fn runs).length : ℤ) = runs ∧
      ∃ s, monte_carlo run_fn runs = Except.ok s) := by
  constructor
  · intro h
    have h0 : runs.toNat = 0 := by omega
    simp [monte_carlo, mc_results, h0]
  · intro h
    have hlen : (mc_results run_fn runs).length = runs.toNat := by
      simp [mc_results]
    have hne : (mc_results run_fn runs).isEmpty = false := by
      cases hmc : mc_results run_fn runs with
      | nil => rw [hmc] at hlen; simp at hlen; omega
      | cons a l => rfl
    refine ⟨by rw [hlen]; omega, ?_⟩
    simp only [monte_carlo, hne, Bool.false_eq_true, if_false]
    exact ⟨_, rfl⟩

/-- Witness for C5: runs = 0 errors out; runs = 3 executes the run
function three times and yields a summary. -/
theorem monte_carlo_runs_guard_witness :
    monte_carlo (fun _ => (2 : ℝ)) 0 =
      Except.error "fmean requires at least one data point" ∧
    ((mc_results (fun _ => (2 : ℝ)) 3).length : ℤ) = 3 ∧
    ∃ s, monte_carlo (fun _ => (2 : ℝ)) 3 = Except.ok s :=
  ⟨(monte_carlo_runs_guard (fun _ => 2) 0).1 (by norm_num),
   (monte_carlo_runs_guard (fun _ => 2) 3).2 (by norm_num)⟩

/-- C6: monte_carlo with runs = 1 returns the summary whose stdev is 0
and whose mean, median, ci_low and ci_high all equal the single sampled
score produced by the one invocation of the run function. -/
theorem monte_carlo_single_run (run_fn : ℕ → ℝ) :
    monte_carlo run_fn 1 =
      Except.ok ⟨run_fn 0, run_fn 0, 0, run_fn 0, run_fn 0⟩ := by
  have h : mc_results run_fn 1 = [run_fn 0] := rfl
  simp [monte_carlo, h, fmean, median, pvariance, List.insertionSort]

/-- C4 counterexample: a distributions entry for extra_cost whose spec
declares neither a uniform nor a normal key (here a triangular one) does
NOT make the simulate command raise a fatal input error before the runs:
the field is silently skipped — the sampled option equals the base
option — and the Monte Carlo simulation proceeds to a summary. -/
theorem simulate_malformed_spec_not_fatal :
    sample_option (fun _ _ => 0) (fun _ _ => 0) demo_option
      [("extra_cost", [("triangular", (0, 10))])] = demo_option ∧
    (simulate_run (fun _ _ _ => 0) (fun _ _ _ => 0) demo_option demo_econ
      demo_ctx 1 [("extra_cost", [("triangular", (0, 10))])] 2).isOk =
      true := by
  exact ⟨rfl, rfl⟩

/-- C4 amended: when the distribution spec of a sampled field is
malformed (it has neither a uniform nor a normal key), sample_option
silently skips that field; with every declared spec malformed, the
sampled option is exactly the base option and no error is raised. -/
theorem sample_option_skips_malformed (udraw gdraw : ℚ → ℚ → ℚ)
    (base : Opt) (dists : List (String × DistSpec))
    (h : ∀ p ∈ dists,
      p.2.lookup "uniform" = none ∧ p.2.lookup "normal" = none) :
    sample_option udraw gdraw base dists = base := by
  induction dists with
  | nil => rfl
  | cons p l ih =>
    have hp := h p (List.mem_cons_self p l)
    simp only [sample_option, List.foldl_cons, hp.1, hp.2]
    exact ih fun q hq => h q (List.mem_cons_of_mem p hq)

/-- Witness for C4's amended claim at a concrete malformed spec. -/
theorem sample_option_skips_malformed_witness :
    sample_option (fun _ _ => 0) (fun _ _ => 0) demo_option
      [("time_saved_hours", [("beta", (1, 2))])] = demo_option := by
  apply sample_option_skips_malformed
  intro p hp
  rcases List.mem_cons.mp hp with rfl | hp
  · exact ⟨rfl, rfl⟩
  · simp at hp

end WorthIt
